import Mathlib

/-!
# Verification of the memos-api-mcp adapter

Shallow embedding of the `memos-api-mcp` MCP server (TypeScript) and proofs
about its tool handlers.  The repository holds a canonical variant
(`src/index.ts`: tools `add_message`, `search_memory`, `delete_memory`,
`add_feedback`; `queryMemos` with a fetch path and an `https` fallback) and
an older variant (tools `add_message`, `search_memory`, `get_message`;
fetch-only `queryMemos` that sends the channel as the `source` field and
never namespaces the user id).  Both are embedded: the canonical one as the
main definitions, the older one under a `v0` prefix.

Conventions of the embedding:
* Environment variables are an immutable `Config` of `Option String`
  (a `none` is an unset variable); JavaScript truthiness of an env string is
  `envFalsy` (unset or empty).
* JSON values are the inductive `JVal`; an `undefined` JavaScript value
  inside a request body is `JVal.undef` (dropped by the serializer, as
  `JSON.stringify` drops `undefined`-valued keys).
* The wall clock read by `dayjs()` is an explicit `WallClock` argument.
* `JSON.parse` of the JavaScript runtime is an explicit `JsonRuntime`
  argument: a partial parse function plus the engine's syntax-error message.
* The single outbound HTTP exchange of an invocation is modelled by passing
  the remote's answer (`HttpResponse`) to the handler; the handler returns
  the protocol response together with the list of dispatcher calls it made,
  so "no network call" is `calls = []`.
* `Md5.hashStr` of the `ts-md5` dependency is modelled by a full MD5
  implementation over UTF-8 bytes (word arithmetic on `Nat` modulo `2^32`),
  checked against the standard test vectors.
-/

/-! ## JSON values -/

/-- A JavaScript/JSON value as it appears in request bodies and responses.
`undef` is JavaScript `undefined` (legal inside an object; skipped by
`JSON.stringify`). -/
inductive JVal where
  | null
  | undef
  | bool (b : Bool)
  | num (n : Int)
  | str (s : String)
  | arr (xs : List JVal)
  | obj (fields : List (String × JVal))

/-- Association-list lookup of an object field (first occurrence). -/
def jGet : List (String × JVal) → String → Option JVal
  | [], _ => none
  | (k₀, v₀) :: rest, k => if k₀ = k then some v₀ else jGet rest k

/-- JavaScript object-spread update `\x7b ...obj, k: v \x7d`: if `k` is
present its value is overwritten in place, otherwise `(k, v)` is appended. -/
def objSet : List (String × JVal) → String → JVal → List (String × JVal)
  | [], k, v => [(k, v)]
  | (k₀, v₀) :: rest, k, v =>
      if k₀ = k then (k₀, v) :: rest else (k₀, v₀) :: objSet rest k v

/-- String-body escaping of `JSON.stringify` (quote and backslash; the
adapter never renders control characters on the paths the claims touch). -/
def jsonEscChar (c : Char) : List Char :=
  if c = '\"' then ['\\', '\"'] else if c = '\\' then ['\\', '\\'] else [c]

/-- Render a string as a JSON string literal. -/
def jsonQuote (s : String) : String :=
  String.mk ('\"' :: s.data.foldr (fun c acc => jsonEscChar c ++ acc) ['\"'])

mutual

/-- Model of `JSON.stringify` on the values the adapter produces.  Inside an object an
`undefined` value drops the whole key; a bare `undefined` renders as `null`
(it can only occur inside an array, where `JSON.stringify` emits `null`). -/
def JVal.stringify : JVal → String
  | .null => "null"
  | .undef => "null"
  | .bool b => cond b "true" "false"
  | .num n => toString n
  | .str s => jsonQuote s
  | .arr xs => "[" ++ String.intercalate "," (jvalPieces xs) ++ "]"
  | .obj fs => "\x7b" ++ String.intercalate "," (jfieldPieces fs) ++ "\x7d"

/-- Rendered elements of a JSON array. -/
def jvalPieces : List JVal → List String
  | [] => []
  | x :: xs => JVal.stringify x :: jvalPieces xs

/-- Rendered `key:value` pieces of a JSON object, skipping
`undefined`-valued keys as `JSON.stringify` does. -/
def jfieldPieces : List (String × JVal) → List String
  | [] => []
  | (_, .undef) :: fs => jfieldPieces fs
  | (k, v) :: fs => (jsonQuote k ++ ":" ++ JVal.stringify v) :: jfieldPieces fs

end

/-! ## JavaScript string and truthiness helpers -/

/-- Truthiness test `!process.env.X`: an env var is falsy when unset or
empty. -/
def envFalsy : Option String → Bool
  | none => true
  | some s => s == ""

/-- JavaScript `a || d` for an optional string `a` (the fallback fires on
`undefined` and on the empty string). -/
def jsOrStr (a : Option String) (d : String) : String :=
  match a with
  | none => d
  | some s => if s == "" then d else s

/-- JavaScript `n || d` for an optional number (the fallback fires on
`undefined` and on zero). -/
def jsOrInt (a : Option Int) (d : Int) : Int :=
  match a with
  | none => d
  | some n => if n == 0 then d else n

/-- Model of `String.prototype.toUpperCase()` on the ASCII fragment the channel tags
use. -/
def jsToUpper (s : String) : String := String.mk (s.data.map Char.toUpper)

/-! ## MD5 (model of `Md5.hashStr` from the `ts-md5` dependency)

Word arithmetic is `Nat` reduced modulo `2 ^ 32`.  The implementation was
checked against the RFC 1321 test suite (`md5("") =
d41d8cd98f00b204e9800998ecf8427e`, `md5("abc") =
900150983cd24fb0d6963f7d28e17f72`, ...). -/

/-- 32-bit addition. -/
def add32 (x y : Nat) : Nat := (x + y) % 4294967296

/-- 32-bit bitwise complement (of a word already below `2 ^ 32`). -/
def not32 (x : Nat) : Nat := x ^^^ 4294967295

/-- 32-bit left rotation. -/
def rotl32 (x n : Nat) : Nat := ((x <<< n) % 4294967296) ||| (x >>> (32 - n))

/-- The 64 MD5 round constants `floor(2^32 * abs(sin(i + 1)))`. -/
def md5K : List Nat := [
  0xd76aa478, 0xe8c7b756, 0x242070db, 0xc1bdceee,
  0xf57c0faf, 0x4787c62a, 0xa8304613, 0xfd469501,
  0x698098d8, 0x8b44f7af, 0xffff5bb1, 0x895cd7be,
  0x6b901122, 0xfd987193, 0xa679438e, 0x49b40821,
  0xf61e2562, 0xc040b340, 0x265e5a51, 0xe9b6c7aa,
  0xd62f105d, 0x02441453, 0xd8a1e681, 0xe7d3fbc8,
  0x21e1cde6, 0xc33707d6, 0xf4d50d87, 0x455a14ed,
  0xa9e3e905, 0xfcefa3f8, 0x676f02d9, 0x8d2a4c8a,
  0xfffa3942, 0x8771f681, 0x6d9d6122, 0xfde5380c,
  0xa4beea44, 0x4bdecfa9, 0xf6bb4b60, 0xbebfbc70,
  0x289b7ec6, 0xeaa127fa, 0xd4ef3085, 0x04881d05,
  0xd9d4d039, 0xe6db99e5, 0x1fa27cf8, 0xc4ac5665,
  0xf4292244, 0x432aff97, 0xab9423a7, 0xfc93a039,
  0x655b59c3, 0x8f0ccc92, 0xffeff47d, 0x85845dd1,
  0x6fa87e4f, 0xfe2ce6e0, 0xa3014314, 0x4e0811a1,
  0xf7537e82, 0xbd3af235, 0x2ad7d2bb, 0xeb86d391]

/-- The per-round left-rotation amounts. -/
def md5S : List Nat := [
  7, 12, 17, 22, 7, 12, 17, 22, 7, 12, 17, 22, 7, 12, 17, 22,
  5, 9, 14, 20, 5, 9, 14, 20, 5, 9, 14, 20, 5, 9, 14, 20,
  4, 11, 16, 23, 4, 11, 16, 23, 4, 11, 16, 23, 4, 11, 16, 23,
  6, 10, 15, 21, 6, 10, 15, 21, 6, 10, 15, 21, 6, 10, 15, 21]

/-- The nonlinear mixing function of round `i`. -/
def md5Mix (i b c d : Nat) : Nat :=
  if i < 16 then (b &&& c) ||| (not32 b &&& d)
  else if i < 32 then (d &&& b) ||| (not32 d &&& c)
  else if i < 48 then b ^^^ c ^^^ d
  else c ^^^ (b ||| not32 d)

/-- The message-word index used in round `i`. -/
def md5Idx (i : Nat) : Nat :=
  if i < 16 then i
  else if i < 32 then (5 * i + 1) % 16
  else if i < 48 then (3 * i + 5) % 16
  else (7 * i) % 16

/-- One MD5 round on the state `(a, b, c, d)`; `m j` is message word `j` of
the current block. -/
def md5Round (m : Nat → Nat) (st : Nat × Nat × Nat × Nat) (i : Nat) :
    Nat × Nat × Nat × Nat :=
  let f := add32 (add32 (add32 (md5Mix i st.2.1 st.2.2.1 st.2.2.2) st.1)
    (md5K.getD i 0)) (m (md5Idx i))
  (st.2.2.2, add32 st.2.1 (rotl32 f (md5S.getD i 0)), st.2.1, st.2.2.1)

/-- Little-endian 32-bit word `j` of a byte list. -/
def leWord (bs : List Nat) (j : Nat) : Nat :=
  bs.getD (4 * j) 0 + 256 * bs.getD (4 * j + 1) 0 +
    65536 * bs.getD (4 * j + 2) 0 + 16777216 * bs.getD (4 * j + 3) 0

/-- Process one 64-byte block. -/
def md5Block (st : Nat × Nat × Nat × Nat) (blk : List Nat) :
    Nat × Nat × Nat × Nat :=
  let r := (List.range 64).foldl (md5Round (leWord blk)) st
  (add32 st.1 r.1, add32 st.2.1 r.2.1, add32 st.2.2.1 r.2.2.1,
    add32 st.2.2.2 r.2.2.2)

/-- Little-endian 64-bit length footer. -/
def le8 (n : Nat) : List Nat :=
  [n % 256, n / 2 ^ 8 % 256, n / 2 ^ 16 % 256, n / 2 ^ 24 % 256,
   n / 2 ^ 32 % 256, n / 2 ^ 40 % 256, n / 2 ^ 48 % 256, n / 2 ^ 56 % 256]

/-- MD5 padding: a `0x80` byte, zeros to 56 mod 64, then the bit length. -/
def md5Pad (msg : List Nat) : List Nat :=
  msg ++ [128] ++ List.replicate ((119 - msg.length % 64) % 64) 0 ++
    le8 (8 * msg.length % 2 ^ 64)

/-- Split a byte list into 64-byte chunks. -/
def chunks64 (l : List Nat) : List (List Nat) :=
  if h : l = [] then []
  else l.take 64 :: chunks64 (l.drop 64)
termination_by l.length
decreasing_by
  simp only [List.length_drop]
  exact Nat.sub_lt (List.length_pos.mpr h) (by decide)

/-- MD5 core: fold the compression function over the padded message. -/
def md5Core (msg : List Nat) : Nat × Nat × Nat × Nat :=
  (chunks64 (md5Pad msg)).foldl md5Block
    (0x67452301, 0xefcdab89, 0x98badcfe, 0x10325476)

/-- Lowercase hexadecimal digit. -/
def hexDigit (n : Nat) : Char :=
  if n < 10 then Char.ofNat (48 + n) else Char.ofNat (87 + n)

/-- Two lowercase hex characters of a byte. -/
def byteHex (b : Nat) : List Char := [hexDigit (b / 16), hexDigit (b % 16)]

/-- Eight lowercase hex characters of a word, little-endian byte order. -/
def wordHexLE (w : Nat) : List Char :=
  byteHex (w % 256) ++ byteHex (w / 256 % 256) ++ byteHex (w / 65536 % 256) ++
    byteHex (w / 16777216 % 256)

/-- The 32-character lowercase hex MD5 digest of a byte list. -/
def md5Hex (msg : List Nat) : String :=
  String.mk (wordHexLE (md5Core msg).1 ++ wordHexLE (md5Core msg).2.1 ++
    wordHexLE (md5Core msg).2.2.1 ++ wordHexLE (md5Core msg).2.2.2)

/-- UTF-8 encoding of one code point. -/
def utf8Bytes (c : Char) : List Nat :=
  let n := c.toNat
  if n < 128 then [n]
  else if n < 2048 then [192 + n / 64, 128 + n % 64]
  else if n < 65536 then [224 + n / 4096, 128 + n / 64 % 64, 128 + n % 64]
  else [240 + n / 262144, 128 + n / 4096 % 64, 128 + n / 64 % 64, 128 + n % 64]

/-- UTF-8 bytes of a string. -/
def strBytes (s : String) : List Nat :=
  s.data.foldr (fun c acc => utf8Bytes c ++ acc) []

/-- Function `stringToMd5` (src/index.ts line 15): the 32-character lowercase MD5
digest of the UTF-8 encoding of the input, as computed by `Md5.hashStr`. -/
def stringToMd5 (input : String) : String := md5Hex (strBytes input)

/-! ### Digest shape lemmas -/

/-- A lowercase hexadecimal character. -/
def isLowerHexChar (c : Char) : Bool := c.isDigit || ('a' ≤ c && c ≤ 'f')

theorem data_mk (l : List Char) : (String.mk l).data = l := rfl

theorem hexDigit_lowerHex : ∀ n < 16, isLowerHexChar (hexDigit n) = true := by
  decide

theorem byteHex_lowerHex (b : Nat) (h : b < 256) :
    (byteHex b).all isLowerHexChar = true := by
  simp only [byteHex, List.all_cons, List.all_nil, Bool.and_true,
    Bool.and_eq_true]
  exact ⟨hexDigit_lowerHex _ (Nat.div_lt_of_lt_mul (by omega)),
    hexDigit_lowerHex _ (Nat.mod_lt _ (by decide))⟩

theorem wordHexLE_lowerHex (w : Nat) :
    (wordHexLE w).all isLowerHexChar = true := by
  simp only [wordHexLE, List.all_append, Bool.and_eq_true]
  exact ⟨⟨⟨byteHex_lowerHex _ (Nat.mod_lt _ (by decide)),
    byteHex_lowerHex _ (Nat.mod_lt _ (by decide))⟩,
    byteHex_lowerHex _ (Nat.mod_lt _ (by decide))⟩,
    byteHex_lowerHex _ (Nat.mod_lt _ (by decide))⟩

theorem wordHexLE_length (w : Nat) : (wordHexLE w).length = 8 := by
  simp [wordHexLE, byteHex]

theorem md5Hex_length (msg : List Nat) : (md5Hex msg).length = 32 := by
  simp [md5Hex, String.length, wordHexLE_length]

theorem md5Hex_lowerHex (msg : List Nat) :
    (md5Hex msg).data.all isLowerHexChar = true := by
  simp only [md5Hex, data_mk, List.all_append, Bool.and_eq_true]
  exact ⟨⟨⟨wordHexLE_lowerHex _, wordHexLE_lowerHex _⟩, wordHexLE_lowerHex _⟩,
    wordHexLE_lowerHex _⟩

theorem stringToMd5_length (s : String) : (stringToMd5 s).length = 32 :=
  md5Hex_length _

theorem stringToMd5_ne_empty (s : String) : stringToMd5 s ≠ "" := by
  intro h
  have := stringToMd5_length s
  rw [h] at this
  exact absurd this (by decide)

/-! ## Configuration (environment variables, read once at startup) -/

/-- The environment variables the adapter reads; `none` is an unset
variable. -/
structure Config where
  apiKey : Option String
  userId : Option String
  channelEnv : Option String
  conversationIdEnv : Option String
  baseUrlEnv : Option String

/-- Constant `MEMOS_BASE_URL` with its default (src/index.ts line 45). -/
def memosBaseUrl (cfg : Config) : String :=
  jsOrStr cfg.baseUrlEnv "https://memos.memtensor.cn/api/openmem/v1"

/-- Constant `MEMOS_CHANNEL_ID = process.env.MEMOS_CHANNEL?.toUpperCase() ?? "MEMOS"`
(src/index.ts line 47). -/
def memosChannelId (cfg : Config) : String :=
  match cfg.channelEnv with
  | none => "MEMOS"
  | some s => jsToUpper s

/-- The fixed channel allow-list `candidateChannelId`
(src/index.ts line 49). -/
def candidateChannelId : List String :=
  ["MODELSCOPE", "MCPSO", "MCPMARKETCN", "MCPMARKETCOM", "MEMOS"]

/-- Membership test `candidateChannelId.includes(t)`. -/
def isKnownChannel (t : String) : Bool := candidateChannelId.contains t

/-! ## Request dispatcher (`queryMemos`) -/

/-- The remote endpoint's answer to the single outbound POST. -/
structure HttpResponse where
  status : Nat
  statusText : String
  body : String

/-- The JavaScript runtime's `JSON.parse`: the partial parse function and
the engine-specific `SyntaxError` message produced on a given input. -/
structure JsonRuntime where
  parse : String → Option JVal
  parseErrMsg : String → String

/-- A successful dispatcher result: parsed JSON, or (https fallback path
only) the literal body text when parsing failed. -/
inductive DispatchOk where
  | json (v : JVal)
  | text (s : String)

/-- A dispatcher failure: a thrown `Error("HTTP <status> <statusText>:
<body>")`, or the rejection of `res.json()` on a malformed success body. -/
inductive DispatchError where
  | httpStatus (status : Nat) (statusText : String) (body : String)
  | parseFail (body : String)

/-- Success test `res.ok` / `sc >= 200 && sc < 300`. -/
def httpOk (st : Nat) : Bool := 200 ≤ st && st < 300

/-- The serialized outbound object `\x7b ...body, source: "MCP" \x7d`
(src/index.ts line 142). -/
def outboundPayload (body : List (String × JVal)) : List (String × JVal) :=
  objSet body "source" (.str "MCP")

/-- Dispatcher `queryMemos` (src/index.ts lines 141-201).  `useFetch` is whether
`globalThis.fetch` exists.  The fetch path returns `res.json()` (which
rejects on a malformed body); the `https` fallback path catches the parse
failure and resolves with the literal text.  On a non-success status both
paths throw `Error("HTTP <status> <statusText>: <body>")` (the fallback
path uses `res.statusMessage || ""`, modelled by `statusText` with
`undefined` read as `""`, on which `|| ""` is the identity).  The request
sent is `POST (memosBaseUrl cfg ++ path)` with payload
`outboundPayload body` and header `Authorization: Token apiKey`; the caller
records it as a `DispatchCall`. -/
def queryMemos (jr : JsonRuntime) (useFetch : Bool) (cfg : Config)
    (path : String) (body : List (String × JVal)) (apiKey : String)
    (remote : HttpResponse) : Except DispatchError DispatchOk :=
  if useFetch then
    if httpOk remote.status then
      match jr.parse remote.body with
      | some v => .ok (.json v)
      | none => .error (.parseFail remote.body)
    else .error (.httpStatus remote.status remote.statusText remote.body)
  else
    if httpOk remote.status then
      match jr.parse remote.body with
      | some v => .ok (.json v)
      | none => .ok (.text remote.body)
    else .error (.httpStatus remote.status remote.statusText remote.body)

/-- The `message` of the `Error` a failed dispatch throws (the parse-failure
message is the engine's `SyntaxError` text). -/
def renderDispatchError (jr : JsonRuntime) : DispatchError → String
  | .httpStatus st stx b => "HTTP " ++ toString st ++ " " ++ stx ++ ": " ++ b
  | .parseFail b => jr.parseErrMsg b

/-! ## Tool handlers -/

/-- The response envelope a handler returns to the protocol layer
(`content[0].text` plus the `isError` flag; handlers never raise). -/
structure ToolResponse where
  text : String
  isError : Bool

/-- One recorded `queryMemos` invocation: the path, the body mapping passed
in (the wire payload is `outboundPayload body`), and the API key. -/
structure DispatchCall where
  path : String
  body : List (String × JVal)
  apiKey : String

/-- What one tool invocation did: the protocol response and the dispatcher
calls made (empty iff no network call). -/
structure HandlerResult where
  resp : ToolResponse
  calls : List DispatchCall

/-- The `catch` branch: `Error: <message>`, `isError: true`, and in the
guard cases no dispatch was made. -/
def errResult (msg : String) : HandlerResult :=
  ⟨⟨"Error: " ++ msg, true⟩, []⟩

/-- Shared tail of every handler: make the one `queryMemos` call and wrap
its outcome (`JSON.stringify(data)` on success, `Error: <e.message>` with
`isError: true` on failure). -/
def finishCall (jr : JsonRuntime) (useFetch : Bool) (cfg : Config)
    (path : String) (body : List (String × JVal)) (apiKey : String)
    (remote : HttpResponse) : HandlerResult :=
  match queryMemos jr useFetch cfg path body apiKey remote with
  | .ok (.json v) => ⟨⟨JVal.stringify v, false⟩, [⟨path, body, apiKey⟩]⟩
  | .ok (.text s) =>
      ⟨⟨JVal.stringify (.str s), false⟩, [⟨path, body, apiKey⟩]⟩
  | .error e =>
      ⟨⟨"Error: " ++ renderDispatchError jr e, true⟩, [⟨path, body, apiKey⟩]⟩

/-- Guard message for a missing API key (src/index.ts line 237). -/
def apiKeyMissingMsg : String :=
  "MEMOS_API_KEY is not set, please set it in the environment variables or mcp.json file"

/-- Guard message for a missing user id (src/index.ts line 241). -/
def userIdMissingMsg : String :=
  "MEMOS_USER_ID is not set, please set it in the environment variables or mcp.json file"

/-- The wall clock at the moment the handler processes the request. -/
structure WallClock where
  year : Nat
  month : Nat
  day : Nat
  hour : Nat
  minute : Nat
  second : Nat
  millis : Nat

/-- Decimal digit character. -/
def digitChar (d : Nat) : Char := Char.ofNat (48 + d)

/-- Two-digit zero-padded field. -/
def pad2l (n : Nat) : List Char := [digitChar (n / 10 % 10), digitChar (n % 10)]

/-- Three-digit zero-padded field. -/
def pad3l (n : Nat) : List Char :=
  [digitChar (n / 100 % 10), digitChar (n / 10 % 10), digitChar (n % 10)]

/-- Four-digit zero-padded field. -/
def pad4l (n : Nat) : List Char :=
  [digitChar (n / 1000 % 10), digitChar (n / 100 % 10),
   digitChar (n / 10 % 10), digitChar (n % 10)]

/-- Function `generateChatTime` (src/index.ts line 19):
`dayjs().format("YYYY-MM-DD HH:mm:ss.SSS")` on the current wall clock. -/
def generateChatTime (c : WallClock) : String :=
  String.mk (pad4l c.year ++ ['-'] ++ pad2l c.month ++ ['-'] ++ pad2l c.day ++
    [' '] ++ pad2l c.hour ++ [':'] ++ pad2l c.minute ++ [':'] ++
    pad2l c.second ++ ['.'] ++ pad3l c.millis)

/-- Checks the fixed timestamp shape `YYYY-MM-DD HH:mm:ss.SSS`. -/
def chatTimeFormatOk (s : String) : Bool :=
  match s.data with
  | [y1, y2, y3, y4, a1, m1, m2, a2, d1, d2, a3, h1, h2, a4, i1, i2, a5,
     s1, s2, a6, x1, x2, x3] =>
    y1.isDigit && y2.isDigit && y3.isDigit && y4.isDigit && a1 == '-' &&
    m1.isDigit && m2.isDigit && a2 == '-' && d1.isDigit && d2.isDigit &&
    a3 == ' ' && h1.isDigit && h2.isDigit && a4 == ':' && i1.isDigit &&
    i2.isDigit && a5 == ':' && s1.isDigit && s2.isDigit && a6 == '.' &&
    x1.isDigit && x2.isDigit && x3.isDigit
  | _ => false

/-- An incoming message of `add_message` (`chat_time` optional). -/
structure MsgIn where
  role : String
  content : String
  chat_time : Option String

/-- Derived conversation identifier:
`stringToMd5(userId + '\n' + firstMessage)` (src/index.ts line 249). -/
def deriveConversationId (userId firstMessage : String) : String :=
  stringToMd5 (userId ++ "\n" ++ firstMessage)

/-- Expression `actualConversationId = stringToMd5(...) || process.env.
MEMOS_CONVERSATION_ID`: the digest unless it is empty, else the env
fallback (which may itself be `undefined`). -/
def actualConversationIdOf (cfg : Config) (userId firstMessage : String) :
    Option String :=
  if deriveConversationId userId firstMessage == "" then cfg.conversationIdEnv
  else some (deriveConversationId userId firstMessage)

/-- A possibly-`undefined` string as a JSON value. -/
def JVal.ofOptStr : Option String → JVal
  | none => .undef
  | some s => .str s

/-- Expression `actualUserId` (src/index.ts line 250): the configured id bare when the
channel is `"MEMOS"`, else namespaced with `-<channel>`. -/
def actualUserIdOf (cfg : Config) : String :=
  if memosChannelId cfg == "MEMOS" then cfg.userId.getD ""
  else cfg.userId.getD "" ++ "-" ++ memosChannelId cfg

/-- Expression `newMessages` (src/index.ts lines 252-256): each message keeps its
truthy `chat_time`, otherwise gets `generateChatTime()`. -/
def newMessagesOf (clock : WallClock) (ms : List MsgIn) : List JVal :=
  ms.map fun m => .obj [("role", .str m.role), ("content", .str m.content),
    ("chat_time", .str (jsOrStr m.chat_time (generateChatTime clock)))]

/-- Body of the `add_message` dispatch (src/index.ts lines 260-264). -/
def addMessageBodyOf (cfg : Config) (clock : WallClock) (cfm : String)
    (ms : List MsgIn) : List (String × JVal) :=
  [("user_id", .str (actualUserIdOf cfg)),
   ("conversation_id",
     JVal.ofOptStr (actualConversationIdOf cfg (cfg.userId.getD "") cfm)),
   ("messages", .arr (newMessagesOf clock ms))]

/-- The `add_message` handler (src/index.ts lines 234-279). -/
def addMessageHandler (cfg : Config) (jr : JsonRuntime) (useFetch : Bool)
    (remote : HttpResponse) (clock : WallClock) (cfm : String)
    (ms : List MsgIn) : HandlerResult :=
  if envFalsy cfg.apiKey then errResult apiKeyMissingMsg
  else if envFalsy cfg.userId then errResult userIdMissingMsg
  else if !isKnownChannel (memosChannelId cfg) then
    errResult ("Unknown channel: " ++ memosChannelId cfg)
  else finishCall jr useFetch cfg "/add/message"
    (addMessageBodyOf cfg clock cfm ms) (cfg.apiKey.getD "") remote

/-- Body of the `search_memory` dispatch (src/index.ts lines 326-331). -/
def searchMemoryBodyOf (cfg : Config) (query cfm : String)
    (lim : Option Int) : List (String × JVal) :=
  [("query", .str query),
   ("user_id", .str (actualUserIdOf cfg)),
   ("conversation_id",
     JVal.ofOptStr (actualConversationIdOf cfg (cfg.userId.getD "") cfm)),
   ("memory_limit_number", .num (jsOrInt lim 6))]

/-- The `search_memory` handler (src/index.ts lines 306-342). -/
def searchMemoryHandler (cfg : Config) (jr : JsonRuntime) (useFetch : Bool)
    (remote : HttpResponse) (query cfm : String) (lim : Option Int) :
    HandlerResult :=
  if envFalsy cfg.apiKey then errResult apiKeyMissingMsg
  else if envFalsy cfg.userId then errResult userIdMissingMsg
  else if !isKnownChannel (memosChannelId cfg) then
    errResult ("Unknown channel: " ++ memosChannelId cfg)
  else finishCall jr useFetch cfg "/search/memory"
    (searchMemoryBodyOf cfg query cfm lim) (cfg.apiKey.getD "") remote

/-- Body of the `delete_memory` dispatch (src/index.ts lines 381-384). -/
def deleteMemoryBodyOf (cfg : Config) (ids : List String) :
    List (String × JVal) :=
  [("user_ids", .arr [.str (actualUserIdOf cfg)]),
   ("memory_ids", .arr (ids.map JVal.str))]

/-- The `delete_memory` handler (src/index.ts lines 363-395). -/
def deleteMemoryHandler (cfg : Config) (jr : JsonRuntime) (useFetch : Bool)
    (remote : HttpResponse) (ids : List String) : HandlerResult :=
  if envFalsy cfg.apiKey then errResult apiKeyMissingMsg
  else if envFalsy cfg.userId then errResult userIdMissingMsg
  else if !isKnownChannel (memosChannelId cfg) then
    errResult ("Unknown channel: " ++ memosChannelId cfg)
  else finishCall jr useFetch cfg "/delete/memory"
    (deleteMemoryBodyOf cfg ids) (cfg.apiKey.getD "") remote

/-- The arguments of `add_feedback`. -/
structure FeedbackIn where
  conversation_first_message : String
  feedback_content : String
  agent_id : Option String
  app_id : Option String
  feedback_time : Option String
  allow_public : Option Bool
  allow_knowledgebase_ids : Option (List String)

/-- A possibly-`undefined` boolean as a JSON value. -/
def JVal.ofOptBool : Option Bool → JVal
  | none => .undef
  | some b => .bool b

/-- A possibly-`undefined` string array as a JSON value. -/
def JVal.ofOptStrList : Option (List String) → JVal
  | none => .undef
  | some l => .arr (l.map JVal.str)

/-- Body of the `add_feedback` dispatch (src/index.ts lines 455-464). -/
def addFeedbackBodyOf (cfg : Config) (inp : FeedbackIn) :
    List (String × JVal) :=
  [("user_id", .str (actualUserIdOf cfg)),
   ("conversation_id",
     JVal.ofOptStr (actualConversationIdOf cfg (cfg.userId.getD "")
       inp.conversation_first_message)),
   ("feedback_content", .str inp.feedback_content),
   ("agent_id", JVal.ofOptStr inp.agent_id),
   ("app_id", JVal.ofOptStr inp.app_id),
   ("feedback_time", JVal.ofOptStr inp.feedback_time),
   ("allow_public", JVal.ofOptBool inp.allow_public),
   ("allow_knowledgebase_ids",
     JVal.ofOptStrList inp.allow_knowledgebase_ids)]

/-- The `add_feedback` handler (src/index.ts lines 436-475). -/
def addFeedbackHandler (cfg : Config) (jr : JsonRuntime) (useFetch : Bool)
    (remote : HttpResponse) (inp : FeedbackIn) : HandlerResult :=
  if envFalsy cfg.apiKey then errResult apiKeyMissingMsg
  else if envFalsy cfg.userId then errResult userIdMissingMsg
  else if !isKnownChannel (memosChannelId cfg) then
    errResult ("Unknown channel: " ++ memosChannelId cfg)
  else finishCall jr useFetch cfg "/add/feedback"
    (addFeedbackBodyOf cfg inp) (cfg.apiKey.getD "") remote

/-- The three startup guards all handlers share succeed. -/
def validCfg (cfg : Config) : Prop :=
  envFalsy cfg.apiKey = false ∧ envFalsy cfg.userId = false ∧
    isKnownChannel (memosChannelId cfg) = true

/-! ## The older variant (`v0`): tools `add_message` / `search_memory` /
`get_message`, fetch-only dispatcher, channel sent as `source`, user id
never namespaced -/

/-- Constant `MEMOS_CHANNEL = process.env.MEMOS_CHANNEL?.toUpperCase() ??
"MODELSCOPE_REMOTE"` of the older variant. -/
def v0ChannelId (cfg : Config) : String :=
  match cfg.channelEnv with
  | none => "MODELSCOPE_REMOTE"
  | some s => jsToUpper s

/-- The older variant's wider channel allow-list. -/
def v0CandidateChannelId : List String :=
  ["MODELSCOPE", "MCPSO", "MCPMARKETCN", "MCPMARKETCOM", "MEMOS", "GITHUB",
   "GLAMA", "PULSEMCP", "MCPSERVERS", "LOBEHUB", "MODELSCOPE_REMOTE"]

/-- Membership test `candidateChannelId.includes(t)` in the older variant. -/
def v0IsKnownChannel (t : String) : Bool := v0CandidateChannelId.contains t

/-- The older variant's `queryMemos(path, body, apiKey, source)`: fetch
only, payload `\x7b ...body, source: source \x7d`, `res.json()` on success
(rejects on a malformed body). -/
def v0QueryMemos (jr : JsonRuntime) (cfg : Config) (path : String)
    (body : List (String × JVal)) (apiKey source : String)
    (remote : HttpResponse) : Except DispatchError DispatchOk :=
  if httpOk remote.status then
    match jr.parse remote.body with
    | some v => .ok (.json v)
    | none => .error (.parseFail remote.body)
  else .error (.httpStatus remote.status remote.statusText remote.body)

/-- Body of the older variant's `add_message` dispatch: the bare configured
user id (no channel namespacing). -/
def v0AddMessageBodyOf (cfg : Config) (clock : WallClock) (cfm : String)
    (ms : List MsgIn) : List (String × JVal) :=
  [("user_id", .str (cfg.userId.getD "")),
   ("conversation_id",
     JVal.ofOptStr (actualConversationIdOf cfg (cfg.userId.getD "") cfm)),
   ("messages", .arr (newMessagesOf clock ms))]

/-- The older variant's `add_message` handler; the channel goes to the
dispatcher as the `source` argument, not into the user id. -/
def v0AddMessageHandler (cfg : Config) (jr : JsonRuntime)
    (remote : HttpResponse) (clock : WallClock) (cfm : String)
    (ms : List MsgIn) : HandlerResult :=
  if envFalsy cfg.apiKey then errResult apiKeyMissingMsg
  else if envFalsy cfg.userId then errResult userIdMissingMsg
  else if !v0IsKnownChannel (v0ChannelId cfg) then
    errResult ("Unknown channel: " ++ v0ChannelId cfg ++ ", candidates: " ++
      String.intercalate ", " v0CandidateChannelId)
  else
    match v0QueryMemos jr cfg "/add/message"
      (v0AddMessageBodyOf cfg clock cfm ms) (cfg.apiKey.getD "")
      (v0ChannelId cfg) remote with
    | .ok (.json v) =>
        ⟨⟨JVal.stringify v, false⟩,
          [⟨"/add/message", v0AddMessageBodyOf cfg clock cfm ms,
            cfg.apiKey.getD ""⟩]⟩
    | .ok (.text s) =>
        ⟨⟨JVal.stringify (.str s), false⟩,
          [⟨"/add/message", v0AddMessageBodyOf cfg clock cfm ms,
            cfg.apiKey.getD ""⟩]⟩
    | .error e =>
        ⟨⟨"Error: " ++ renderDispatchError jr e, true⟩,
          [⟨"/add/message", v0AddMessageBodyOf cfg clock cfm ms,
            cfg.apiKey.getD ""⟩]⟩

/-! ## Proof helpers -/

/-- Substring predicate: `sub` occurs inside `s`. -/
def strHasSub (s sub : String) : Prop := sub.data <:+: s.data

instance (s sub : String) : Decidable (strHasSub s sub) :=
  inferInstanceAs (Decidable (sub.data <:+: s.data))

theorem strHasSub_appendR (a b : String) : strHasSub (a ++ b) b :=
  ⟨a.data, [], by simp [String.data_append]⟩

theorem strHasSub_mid (a b c : String) : strHasSub (a ++ b ++ c) b :=
  ⟨a.data, c.data, by simp [String.data_append]⟩

/-- Concrete evaluation samples used by witnesses and counterexamples. -/
def jrNone : JsonRuntime :=
  ⟨fun _ => none, fun _ => "Unexpected end of JSON input"⟩

def clock0 : WallClock := ⟨2026, 1, 2, 3, 4, 5, 6⟩

def remoteOkEmpty : HttpResponse := ⟨200, "OK", ""⟩

/-! ## C1: missing API key blocks every tool before any network call -/

theorem errText_mentions_api_key :
    strHasSub ("Error: " ++ apiKeyMissingMsg) "MEMOS_API_KEY" := by decide

/-- C1: with no API key configured, each of the four tool handlers
(`add_message`, `search_memory`, `delete_memory`, `add_feedback`) returns
an error-flagged response whose text contains `"MEMOS_API_KEY"`, and makes
no `queryMemos` call. -/
theorem c1_missing_api_key_blocks_all_tools (cfg : Config) (jr : JsonRuntime)
    (useFetch : Bool) (remote : HttpResponse) (clock : WallClock)
    (cfm query : String) (ms : List MsgIn) (lim : Option Int)
    (ids : List String) (fb : FeedbackIn) (h : cfg.apiKey = none) :
    ((addMessageHandler cfg jr useFetch remote clock cfm ms).resp.isError =
        true ∧
      strHasSub (addMessageHandler cfg jr useFetch remote clock
        cfm ms).resp.text "MEMOS_API_KEY" ∧
      (addMessageHandler cfg jr useFetch remote clock cfm ms).calls = []) ∧
    ((searchMemoryHandler cfg jr useFetch remote query cfm lim).resp.isError =
        true ∧
      strHasSub (searchMemoryHandler cfg jr useFetch remote query
        cfm lim).resp.text "MEMOS_API_KEY" ∧
      (searchMemoryHandler cfg jr useFetch remote query cfm lim).calls = []) ∧
    ((deleteMemoryHandler cfg jr useFetch remote ids).resp.isError = true ∧
      strHasSub (deleteMemoryHandler cfg jr useFetch remote ids).resp.text
        "MEMOS_API_KEY" ∧
      (deleteMemoryHandler cfg jr useFetch remote ids).calls = []) ∧
    ((addFeedbackHandler cfg jr useFetch remote fb).resp.isError = true ∧
      strHasSub (addFeedbackHandler cfg jr useFetch remote fb).resp.text
        "MEMOS_API_KEY" ∧
      (addFeedbackHandler cfg jr useFetch remote fb).calls = []) := by
  have hf : envFalsy cfg.apiKey = true := by rw [h]; rfl
  refine ⟨⟨?_, ?_, ?_⟩, ⟨?_, ?_, ?_⟩, ⟨?_, ?_, ?_⟩, ?_, ?_, ?_⟩ <;>
    simp only [addMessageHandler, searchMemoryHandler, deleteMemoryHandler,
      addFeedbackHandler, hf, if_true, errResult] <;>
    first
      | rfl
      | exact errText_mentions_api_key

def c1cfg : Config := ⟨none, some "u", none, none, none⟩

def fb0 : FeedbackIn := ⟨"hi", "noted", none, none, none, none, none⟩

theorem c1_witness :
    ((addMessageHandler c1cfg jrNone true remoteOkEmpty clock0 "hi"
        []).resp.isError = true ∧
      strHasSub (addMessageHandler c1cfg jrNone true remoteOkEmpty clock0 "hi"
        []).resp.text "MEMOS_API_KEY" ∧
      (addMessageHandler c1cfg jrNone true remoteOkEmpty clock0 "hi"
        []).calls = []) ∧
    ((searchMemoryHandler c1cfg jrNone true remoteOkEmpty "q" "hi"
        none).resp.isError = true ∧
      strHasSub (searchMemoryHandler c1cfg jrNone true remoteOkEmpty "q" "hi"
        none).resp.text "MEMOS_API_KEY" ∧
      (searchMemoryHandler c1cfg jrNone true remoteOkEmpty "q" "hi"
        none).calls = []) ∧
    ((deleteMemoryHandler c1cfg jrNone true remoteOkEmpty
        ["m1"]).resp.isError = true ∧
      strHasSub (deleteMemoryHandler c1cfg jrNone true remoteOkEmpty
        ["m1"]).resp.text "MEMOS_API_KEY" ∧
      (deleteMemoryHandler c1cfg jrNone true remoteOkEmpty ["m1"]).calls =
        []) ∧
    ((addFeedbackHandler c1cfg jrNone true remoteOkEmpty fb0).resp.isError =
        true ∧
      strHasSub (addFeedbackHandler c1cfg jrNone true remoteOkEmpty
        fb0).resp.text "MEMOS_API_KEY" ∧
      (addFeedbackHandler c1cfg jrNone true remoteOkEmpty fb0).calls = []) :=
  c1_missing_api_key_blocks_all_tools c1cfg jrNone true remoteOkEmpty clock0
    "hi" "q" [] none ["m1"] fb0 rfl

/-! ## C2: the conversation identifier is the lowercase MD5 hex digest of
`userId + "\n" + firstMessage` -/

/-- C2: the derived conversation identifier is exactly the MD5 digest of
the UTF-8 bytes of `userId ++ "\n" ++ firstMessage`, is always 32 lowercase
hexadecimal characters, and is deterministic (equal inputs give equal
output); the function is total, so empty strings are accepted. -/
theorem c2_conversation_id_is_md5 (u f u' f' : String) (hu : u = u')
    (hf : f = f') :
    deriveConversationId u f = md5Hex (strBytes (u ++ "\n" ++ f)) ∧
    (deriveConversationId u f).length = 32 ∧
    (deriveConversationId u f).data.all isLowerHexChar = true ∧
    deriveConversationId u f = deriveConversationId u' f' :=
  ⟨rfl, stringToMd5_length _, md5Hex_lowerHex _, by rw [hu, hf]⟩

theorem c2_witness :
    deriveConversationId "" "" = md5Hex (strBytes ("" ++ "\n" ++ "")) ∧
    (deriveConversationId "" "").length = 32 ∧
    (deriveConversationId "" "").data.all isLowerHexChar = true ∧
    deriveConversationId "" "" = deriveConversationId "" "" :=
  c2_conversation_id_is_md5 "" "" "" "" rfl rfl

/-! ## Shared handler-dispatch lemmas -/

theorem finishCall_calls (jr : JsonRuntime) (useFetch : Bool) (cfg : Config)
    (path : String) (body : List (String × JVal)) (apiKey : String)
    (remote : HttpResponse) :
    (finishCall jr useFetch cfg path body apiKey remote).calls =
      [⟨path, body, apiKey⟩] := by
  unfold finishCall
  cases queryMemos jr useFetch cfg path body apiKey remote with
  | error e => rfl
  | ok d => cases d with
    | json v => rfl
    | text s => rfl

theorem addMessageHandler_calls (cfg : Config) (h : validCfg cfg)
    (jr : JsonRuntime) (useFetch : Bool) (remote : HttpResponse)
    (clock : WallClock) (cfm : String) (ms : List MsgIn) :
    (addMessageHandler cfg jr useFetch remote clock cfm ms).calls =
      [⟨"/add/message", addMessageBodyOf cfg clock cfm ms,
        cfg.apiKey.getD ""⟩] := by
  obtain ⟨h1, h2, h3⟩ := h
  simp [addMessageHandler, h1, h2, h3, finishCall_calls]

theorem searchMemoryHandler_calls (cfg : Config) (h : validCfg cfg)
    (jr : JsonRuntime) (useFetch : Bool) (remote : HttpResponse)
    (query cfm : String) (lim : Option Int) :
    (searchMemoryHandler cfg jr useFetch remote query cfm lim).calls =
      [⟨"/search/memory", searchMemoryBodyOf cfg query cfm lim,
        cfg.apiKey.getD ""⟩] := by
  obtain ⟨h1, h2, h3⟩ := h
  simp [searchMemoryHandler, h1, h2, h3, finishCall_calls]

theorem deleteMemoryHandler_calls (cfg : Config) (h : validCfg cfg)
    (jr : JsonRuntime) (useFetch : Bool) (remote : HttpResponse)
    (ids : List String) :
    (deleteMemoryHandler cfg jr useFetch remote ids).calls =
      [⟨"/delete/memory", deleteMemoryBodyOf cfg ids,
        cfg.apiKey.getD ""⟩] := by
  obtain ⟨h1, h2, h3⟩ := h
  simp [deleteMemoryHandler, h1, h2, h3, finishCall_calls]

theorem addFeedbackHandler_calls (cfg : Config) (h : validCfg cfg)
    (jr : JsonRuntime) (useFetch : Bool) (remote : HttpResponse)
    (fb : FeedbackIn) :
    (addFeedbackHandler cfg jr useFetch remote fb).calls =
      [⟨"/add/feedback", addFeedbackBodyOf cfg fb, cfg.apiKey.getD ""⟩] := by
  obtain ⟨h1, h2, h3⟩ := h
  simp [addFeedbackHandler, h1, h2, h3, finishCall_calls]

/-! ## C3: channel namespacing of the effective user identifier -/

def c3cfg : Config := ⟨some "k", some "u", some "GITHUB", none, none⟩

/-- C3 counterexample: in the older variant (`get_message` variant) the
dispatched `add_message` body carries the bare configured user id even
though the configured channel tag `GITHUB` differs from every default tag,
so "for every tool invocation" the namespacing rule does not hold. -/
theorem c3_counterexample_v0_user_id_not_namespaced :
    v0ChannelId c3cfg = "GITHUB" ∧
    ("GITHUB" : String) ≠ "MODELSCOPE_REMOTE" ∧
    ("GITHUB" : String) ≠ "MEMOS" ∧
    (v0AddMessageHandler c3cfg jrNone remoteOkEmpty clock0 "hi"
      []).calls.map (fun c => jGet c.body "user_id") = [some (.str "u")] ∧
    ("u" : String) ≠ "u" ++ "-" ++ "GITHUB" := by
  refine ⟨by decide, by decide, by decide, rfl, by decide⟩

/-- C3 amended: in the canonical variant (src/index.ts, and identically in
the delete/feedback variant), every tool invocation places
`actualUserIdOf cfg` in the outbound body, which equals the configured user
identifier exactly when the channel tag is the default `"MEMOS"` and equals
`userId ++ "-" ++ channel` otherwise; the older `get_message` variant
instead always sends the bare configured id (the channel travels in the
`source` field). -/
theorem c3_effective_user_id_namespacing (cfg : Config) (h : validCfg cfg)
    (jr : JsonRuntime) (useFetch : Bool) (remote : HttpResponse)
    (clock : WallClock) (cfm query : String) (ms : List MsgIn)
    (lim : Option Int) (ids : List String) (fb : FeedbackIn) :
    jGet (addMessageBodyOf cfg clock cfm ms) "user_id" =
      some (.str (actualUserIdOf cfg)) ∧
    jGet (searchMemoryBodyOf cfg query cfm lim) "user_id" =
      some (.str (actualUserIdOf cfg)) ∧
    jGet (addFeedbackBodyOf cfg fb) "user_id" =
      some (.str (actualUserIdOf cfg)) ∧
    jGet (deleteMemoryBodyOf cfg ids) "user_ids" =
      some (.arr [.str (actualUserIdOf cfg)]) ∧
    (addMessageHandler cfg jr useFetch remote clock cfm ms).calls =
      [⟨"/add/message", addMessageBodyOf cfg clock cfm ms,
        cfg.apiKey.getD ""⟩] ∧
    (searchMemoryHandler cfg jr useFetch remote query cfm lim).calls =
      [⟨"/search/memory", searchMemoryBodyOf cfg query cfm lim,
        cfg.apiKey.getD ""⟩] ∧
    (deleteMemoryHandler cfg jr useFetch remote ids).calls =
      [⟨"/delete/memory", deleteMemoryBodyOf cfg ids,
        cfg.apiKey.getD ""⟩] ∧
    (addFeedbackHandler cfg jr useFetch remote fb).calls =
      [⟨"/add/feedback", addFeedbackBodyOf cfg fb, cfg.apiKey.getD ""⟩] ∧
    (memosChannelId cfg = "MEMOS" →
      actualUserIdOf cfg = cfg.userId.getD "") ∧
    (memosChannelId cfg ≠ "MEMOS" →
      actualUserIdOf cfg = cfg.userId.getD "" ++ "-" ++ memosChannelId cfg ∧
      actualUserIdOf cfg ≠ cfg.userId.getD "") := by
  refine ⟨rfl, rfl, rfl, rfl,
    addMessageHandler_calls cfg h jr useFetch remote clock cfm ms,
    searchMemoryHandler_calls cfg h jr useFetch remote query cfm lim,
    deleteMemoryHandler_calls cfg h jr useFetch remote ids,
    addFeedbackHandler_calls cfg h jr useFetch remote fb, ?_, ?_⟩
  · intro hm
    simp [actualUserIdOf, hm]
  · intro hm
    have hb : (memosChannelId cfg == "MEMOS") = false :=
      beq_eq_false_iff_ne.mpr hm
    refine ⟨by simp [actualUserIdOf, hb], ?_⟩
    simp only [actualUserIdOf, hb, Bool.false_eq_true, if_false]
    intro heq
    have hl := congrArg String.length heq
    have hd : ("-" : String).length = 1 := rfl
    simp only [String.length_append, hd] at hl
    omega

def c3wcfg : Config := ⟨some "k", some "u", some "mcpso", none, none⟩

theorem c3_witness :
    jGet (addMessageBodyOf c3wcfg clock0 "hi" []) "user_id" =
      some (.str (actualUserIdOf c3wcfg)) ∧
    jGet (searchMemoryBodyOf c3wcfg "q" "hi" none) "user_id" =
      some (.str (actualUserIdOf c3wcfg)) ∧
    jGet (addFeedbackBodyOf c3wcfg fb0) "user_id" =
      some (.str (actualUserIdOf c3wcfg)) ∧
    jGet (deleteMemoryBodyOf c3wcfg ["m1"]) "user_ids" =
      some (.arr [.str (actualUserIdOf c3wcfg)]) ∧
    (addMessageHandler c3wcfg jrNone true remoteOkEmpty clock0 "hi"
      []).calls = [⟨"/add/message", addMessageBodyOf c3wcfg clock0 "hi" [],
        c3wcfg.apiKey.getD ""⟩] ∧
    (searchMemoryHandler c3wcfg jrNone true remoteOkEmpty "q" "hi"
      none).calls = [⟨"/search/memory",
        searchMemoryBodyOf c3wcfg "q" "hi" none, c3wcfg.apiKey.getD ""⟩] ∧
    (deleteMemoryHandler c3wcfg jrNone true remoteOkEmpty ["m1"]).calls =
      [⟨"/delete/memory", deleteMemoryBodyOf c3wcfg ["m1"],
        c3wcfg.apiKey.getD ""⟩] ∧
    (addFeedbackHandler c3wcfg jrNone true remoteOkEmpty fb0).calls =
      [⟨"/add/feedback", addFeedbackBodyOf c3wcfg fb0,
        c3wcfg.apiKey.getD ""⟩] ∧
    (memosChannelId c3wcfg = "MEMOS" →
      actualUserIdOf c3wcfg = c3wcfg.userId.getD "") ∧
    (memosChannelId c3wcfg ≠ "MEMOS" →
      actualUserIdOf c3wcfg =
        c3wcfg.userId.getD "" ++ "-" ++ memosChannelId c3wcfg ∧
      actualUserIdOf c3wcfg ≠ c3wcfg.userId.getD "") :=
  c3_effective_user_id_namespacing c3wcfg
    (by unfold validCfg; exact ⟨by decide, by decide, by decide⟩) jrNone true
    remoteOkEmpty clock0 "hi" "q" [] none ["m1"] fb0

/-! ## C4: success responses with malformed JSON bodies -/

def anyCfg : Config := ⟨none, none, none, none, none⟩

/-- C4 counterexample: in the fetch path (the primary path on Node >= 18)
a 2xx response whose body is not valid JSON makes `res.json()` reject, so
the dispatcher fails instead of returning the literal response text. -/
theorem c4_counterexample_fetch_path_rejects_malformed_success_body :
    queryMemos jrNone true anyCfg "/add/message" [] "k" ⟨200, "OK", "not json"⟩
      = .error (.parseFail "not json") ∧
    queryMemos jrNone true anyCfg "/add/message" [] "k" ⟨200, "OK", "not json"⟩
      ≠ .ok (.text "not json") :=
  ⟨rfl, fun h => nomatch h⟩

/-- C4 amended: only the `https` fallback path (taken when global `fetch`
is unavailable) returns the literal response text on a malformed 2xx body;
the fetch path fails with the `res.json()` parse rejection, which the
handler catches and surfaces as an error-flagged response. -/
theorem c4_success_body_parse_fallback (jr : JsonRuntime) (cfg : Config)
    (path : String) (body : List (String × JVal)) (apiKey : String)
    (remote : HttpResponse) (h2 : 200 ≤ remote.status)
    (h3 : remote.status < 300) (hp : jr.parse remote.body = none) :
    queryMemos jr false cfg path body apiKey remote =
      .ok (.text remote.body) ∧
    queryMemos jr true cfg path body apiKey remote =
      .error (.parseFail remote.body) := by
  have hok : httpOk remote.status = true := by
    simp only [httpOk, Bool.and_eq_true, decide_eq_true_eq]
    omega
  constructor <;> simp [queryMemos, hok, hp]

theorem c4_witness :
    queryMemos jrNone false anyCfg "/p" [] "k" ⟨204, "No Content", "x"⟩ =
      .ok (.text "x") ∧
    queryMemos jrNone true anyCfg "/p" [] "k" ⟨204, "No Content", "x"⟩ =
      .error (.parseFail "x") :=
  c4_success_body_parse_fallback jrNone anyCfg "/p" [] "k"
    ⟨204, "No Content", "x"⟩ (by decide) (by decide) rfl

/-! ## C5: channel validation -/

def c5cfg : Config := ⟨none, none, some "BOGUS", none, none⟩

/-- C5 counterexample: with the unknown channel `BOGUS` but no API key
configured, the invocation fails with the API-key message, which does not
mention the unknown channel — so "every tool invocation fails with an
error mentioning the unknown channel" is false as universally stated. -/
theorem c5_counterexample_missing_key_masks_unknown_channel :
    isKnownChannel (memosChannelId c5cfg) = false ∧
    (addMessageHandler c5cfg jrNone true remoteOkEmpty clock0 "hi"
      []).resp.isError = true ∧
    (addMessageHandler c5cfg jrNone true remoteOkEmpty clock0 "hi"
      []).calls = [] ∧
    ¬ strHasSub (addMessageHandler c5cfg jrNone true remoteOkEmpty clock0
      "hi" []).resp.text (memosChannelId c5cfg) :=
  ⟨by decide, rfl, rfl, by set_option maxRecDepth 4000 in decide⟩

theorem unknownChannel_text_mentions (chan : String) :
    strHasSub ("Error: " ++ ("Unknown channel: " ++ chan)) chan := by
  refine ⟨"Error: ".data ++ "Unknown channel: ".data, [], ?_⟩
  simp [String.data_append, List.append_assoc]

/-- C5 amended: channel validation succeeds exactly on members of the
fixed allow-list after upper-case normalization; with a tag outside the
allow-list every tool invocation fails with no network call, and — provided
the API key and user identifier guards pass first — the error text mentions
the unknown channel. -/
theorem c5_channel_validation (cfg : Config) (jr : JsonRuntime)
    (useFetch : Bool) (remote : HttpResponse) (clock : WallClock)
    (cfm query : String) (ms : List MsgIn) (lim : Option Int)
    (ids : List String) (fb : FeedbackIn)
    (hk : isKnownChannel (memosChannelId cfg) = false) :
    (∀ t : String,
      isKnownChannel (jsToUpper t) = true ↔
        jsToUpper t ∈ candidateChannelId) ∧
    (∀ e : String,
      memosChannelId ⟨cfg.apiKey, cfg.userId, some e, cfg.conversationIdEnv,
        cfg.baseUrlEnv⟩ = jsToUpper e) ∧
    ((addMessageHandler cfg jr useFetch remote clock cfm ms).calls = [] ∧
      (addMessageHandler cfg jr useFetch remote clock cfm ms).resp.isError =
        true ∧
      (envFalsy cfg.apiKey = false → envFalsy cfg.userId = false →
        strHasSub (addMessageHandler cfg jr useFetch remote clock
          cfm ms).resp.text (memosChannelId cfg))) ∧
    ((searchMemoryHandler cfg jr useFetch remote query cfm lim).calls = [] ∧
      (searchMemoryHandler cfg jr useFetch remote query cfm
        lim).resp.isError = true ∧
      (envFalsy cfg.apiKey = false → envFalsy cfg.userId = false →
        strHasSub (searchMemoryHandler cfg jr useFetch remote query cfm
          lim).resp.text (memosChannelId cfg))) ∧
    ((deleteMemoryHandler cfg jr useFetch remote ids).calls = [] ∧
      (deleteMemoryHandler cfg jr useFetch remote ids).resp.isError = true ∧
      (envFalsy cfg.apiKey = false → envFalsy cfg.userId = false →
        strHasSub (deleteMemoryHandler cfg jr useFetch remote
          ids).resp.text (memosChannelId cfg))) ∧
    ((addFeedbackHandler cfg jr useFetch remote fb).calls = [] ∧
      (addFeedbackHandler cfg jr useFetch remote fb).resp.isError = true ∧
      (envFalsy cfg.apiKey = false → envFalsy cfg.userId = false →
        strHasSub (addFeedbackHandler cfg jr useFetch remote
          fb).resp.text (memosChannelId cfg))) := by
  refine ⟨?_, ?_, ?_, ?_, ?_, ?_⟩
  · intro t
    simp [isKnownChannel, List.elem_iff]
  · intro e
    rfl
  all_goals
    cases hA : envFalsy cfg.apiKey <;> cases hU : envFalsy cfg.userId <;>
      simp [addMessageHandler, searchMemoryHandler, deleteMemoryHandler,
        addFeedbackHandler, hA, hU, hk, errResult] <;>
      exact unknownChannel_text_mentions _

def c5wcfg : Config := ⟨some "k", some "u", some "WAT", none, none⟩

theorem c5_witness :
    (∀ t : String,
      isKnownChannel (jsToUpper t) = true ↔
        jsToUpper t ∈ candidateChannelId) ∧
    (∀ e : String,
      memosChannelId ⟨c5wcfg.apiKey, c5wcfg.userId, some e,
        c5wcfg.conversationIdEnv, c5wcfg.baseUrlEnv⟩ = jsToUpper e) ∧
    ((addMessageHandler c5wcfg jrNone true remoteOkEmpty clock0 "hi"
        []).calls = [] ∧
      (addMessageHandler c5wcfg jrNone true remoteOkEmpty clock0 "hi"
        []).resp.isError = true ∧
      (envFalsy c5wcfg.apiKey = false → envFalsy c5wcfg.userId = false →
        strHasSub (addMessageHandler c5wcfg jrNone true remoteOkEmpty clock0
          "hi" []).resp.text (memosChannelId c5wcfg))) ∧
    ((searchMemoryHandler c5wcfg jrNone true remoteOkEmpty "q" "hi"
        none).calls = [] ∧
      (searchMemoryHandler c5wcfg jrNone true remoteOkEmpty "q" "hi"
        none).resp.isError = true ∧
      (envFalsy c5wcfg.apiKey = false → envFalsy c5wcfg.userId = false →
        strHasSub (searchMemoryHandler c5wcfg jrNone true remoteOkEmpty "q"
          "hi" none).resp.text (memosChannelId c5wcfg))) ∧
    ((deleteMemoryHandler c5wcfg jrNone true remoteOkEmpty ["m1"]).calls =
        [] ∧
      (deleteMemoryHandler c5wcfg jrNone true remoteOkEmpty
        ["m1"]).resp.isError = true ∧
      (envFalsy c5wcfg.apiKey = false → envFalsy c5wcfg.userId = false →
        strHasSub (deleteMemoryHandler c5wcfg jrNone true remoteOkEmpty
          ["m1"]).resp.text (memosChannelId c5wcfg))) ∧
    ((addFeedbackHandler c5wcfg jrNone true remoteOkEmpty fb0).calls = [] ∧
      (addFeedbackHandler c5wcfg jrNone true remoteOkEmpty
        fb0).resp.isError = true ∧
      (envFalsy c5wcfg.apiKey = false → envFalsy c5wcfg.userId = false →
        strHasSub (addFeedbackHandler c5wcfg jrNone true remoteOkEmpty
          fb0).resp.text (memosChannelId c5wcfg))) :=
  c5_channel_validation c5wcfg jrNone true remoteOkEmpty clock0 "hi" "q" []
    none ["m1"] fb0 (by decide)

/-! ## C6: non-success HTTP statuses surface as in-band errors -/

theorem httpError_text_mentions (st : Nat) (stx b : String) :
    strHasSub ("Error: " ++ ("HTTP " ++ toString st ++ " " ++ stx ++ ": " ++
      b)) (toString st) ∧
    strHasSub ("Error: " ++ ("HTTP " ++ toString st ++ " " ++ stx ++ ": " ++
      b)) b := by
  constructor
  · exact ⟨"Error: ".data ++ "HTTP ".data,
      (" " ++ stx ++ ": " ++ b).data,
      by simp [String.data_append, List.append_assoc]⟩
  · exact ⟨("Error: " ++ ("HTTP " ++ toString st ++ " " ++ stx ++ ": ")).data,
      [], by simp [String.data_append, List.append_assoc]⟩

theorem finishCall_httpError (jr : JsonRuntime) (useFetch : Bool)
    (cfg : Config) (path : String) (body : List (String × JVal))
    (apiKey : String) (remote : HttpResponse)
    (hst : httpOk remote.status = false) :
    (finishCall jr useFetch cfg path body apiKey remote).resp.text =
      "Error: " ++ ("HTTP " ++ toString remote.status ++ " " ++
        remote.statusText ++ ": " ++ remote.body) ∧
    (finishCall jr useFetch cfg path body apiKey remote).resp.isError =
      true := by
  cases useFetch <;>
    simp [finishCall, queryMemos, hst, renderDispatchError]

theorem addMessageHandler_valid (cfg : Config) (h : validCfg cfg)
    (jr : JsonRuntime) (useFetch : Bool) (remote : HttpResponse)
    (clock : WallClock) (cfm : String) (ms : List MsgIn) :
    addMessageHandler cfg jr useFetch remote clock cfm ms =
      finishCall jr useFetch cfg "/add/message"
        (addMessageBodyOf cfg clock cfm ms) (cfg.apiKey.getD "") remote := by
  obtain ⟨h1, h2, h3⟩ := h
  simp [addMessageHandler, h1, h2, h3]

theorem searchMemoryHandler_valid (cfg : Config) (h : validCfg cfg)
    (jr : JsonRuntime) (useFetch : Bool) (remote : HttpResponse)
    (query cfm : String) (lim : Option Int) :
    searchMemoryHandler cfg jr useFetch remote query cfm lim =
      finishCall jr useFetch cfg "/search/memory"
        (searchMemoryBodyOf cfg query cfm lim) (cfg.apiKey.getD "")
        remote := by
  obtain ⟨h1, h2, h3⟩ := h
  simp [searchMemoryHandler, h1, h2, h3]

theorem deleteMemoryHandler_valid (cfg : Config) (h : validCfg cfg)
    (jr : JsonRuntime) (useFetch : Bool) (remote : HttpResponse)
    (ids : List String) :
    deleteMemoryHandler cfg jr useFetch remote ids =
      finishCall jr useFetch cfg "/delete/memory"
        (deleteMemoryBodyOf cfg ids) (cfg.apiKey.getD "") remote := by
  obtain ⟨h1, h2, h3⟩ := h
  simp [deleteMemoryHandler, h1, h2, h3]

theorem addFeedbackHandler_valid (cfg : Config) (h : validCfg cfg)
    (jr : JsonRuntime) (useFetch : Bool) (remote : HttpResponse)
    (fb : FeedbackIn) :
    addFeedbackHandler cfg jr useFetch remote fb =
      finishCall jr useFetch cfg "/add/feedback" (addFeedbackBodyOf cfg fb)
        (cfg.apiKey.getD "") remote := by
  obtain ⟨h1, h2, h3⟩ := h
  simp [addFeedbackHandler, h1, h2, h3]

/-- C6: with a valid configuration and a remote answering a non-success
status, each of the four handlers returns an error-flagged response whose
text contains the status code and the response body text (handlers are
total functions: no fault ever reaches the protocol layer). -/
theorem c6_remote_error_surfaced (cfg : Config) (h : validCfg cfg)
    (jr : JsonRuntime) (useFetch : Bool) (remote : HttpResponse)
    (clock : WallClock) (cfm query : String) (ms : List MsgIn)
    (lim : Option Int) (ids : List String) (fb : FeedbackIn)
    (hst : httpOk remote.status = false) :
    ((addMessageHandler cfg jr useFetch remote clock cfm ms).resp.isError =
        true ∧
      strHasSub (addMessageHandler cfg jr useFetch remote clock
        cfm ms).resp.text (toString remote.status) ∧
      strHasSub (addMessageHandler cfg jr useFetch remote clock
        cfm ms).resp.text remote.body) ∧
    ((searchMemoryHandler cfg jr useFetch remote query cfm
        lim).resp.isError = true ∧
      strHasSub (searchMemoryHandler cfg jr useFetch remote query cfm
        lim).resp.text (toString remote.status) ∧
      strHasSub (searchMemoryHandler cfg jr useFetch remote query cfm
        lim).resp.text remote.body) ∧
    ((deleteMemoryHandler cfg jr useFetch remote ids).resp.isError = true ∧
      strHasSub (deleteMemoryHandler cfg jr useFetch remote ids).resp.text
        (toString remote.status) ∧
      strHasSub (deleteMemoryHandler cfg jr useFetch remote ids).resp.text
        remote.body) ∧
    ((addFeedbackHandler cfg jr useFetch remote fb).resp.isError = true ∧
      strHasSub (addFeedbackHandler cfg jr useFetch remote fb).resp.text
        (toString remote.status) ∧
      strHasSub (addFeedbackHandler cfg jr useFetch remote fb).resp.text
        remote.body) := by
  have hm := httpError_text_mentions remote.status remote.statusText
    remote.body
  have hA := addMessageHandler_valid cfg h jr useFetch remote clock cfm ms
  have hS := searchMemoryHandler_valid cfg h jr useFetch remote query cfm lim
  have hD := deleteMemoryHandler_valid cfg h jr useFetch remote ids
  have hF := addFeedbackHandler_valid cfg h jr useFetch remote fb
  refine ⟨⟨?_, ?_, ?_⟩, ⟨?_, ?_, ?_⟩, ⟨?_, ?_, ?_⟩, ?_, ?_, ?_⟩ <;>
    first
      | rw [hA, (finishCall_httpError jr useFetch cfg "/add/message"
          (addMessageBodyOf cfg clock cfm ms) (cfg.apiKey.getD "") remote
          hst).2]
      | rw [hS, (finishCall_httpError jr useFetch cfg "/search/memory"
          (searchMemoryBodyOf cfg query cfm lim) (cfg.apiKey.getD "") remote
          hst).2]
      | rw [hD, (finishCall_httpError jr useFetch cfg "/delete/memory"
          (deleteMemoryBodyOf cfg ids) (cfg.apiKey.getD "") remote hst).2]
      | rw [hF, (finishCall_httpError jr useFetch cfg "/add/feedback"
          (addFeedbackBodyOf cfg fb) (cfg.apiKey.getD "") remote hst).2]
      | (rw [hA, (finishCall_httpError jr useFetch cfg "/add/message"
          (addMessageBodyOf cfg clock cfm ms) (cfg.apiKey.getD "") remote
          hst).1]; first | exact hm.1 | exact hm.2)
      | (rw [hS, (finishCall_httpError jr useFetch cfg "/search/memory"
          (searchMemoryBodyOf cfg query cfm lim) (cfg.apiKey.getD "") remote
          hst).1]; first | exact hm.1 | exact hm.2)
      | (rw [hD, (finishCall_httpError jr useFetch cfg "/delete/memory"
          (deleteMemoryBodyOf cfg ids) (cfg.apiKey.getD "") remote hst).1];
          first | exact hm.1 | exact hm.2)
      | (rw [hF, (finishCall_httpError jr useFetch cfg "/add/feedback"
          (addFeedbackBodyOf cfg fb) (cfg.apiKey.getD "") remote hst).1];
          first | exact hm.1 | exact hm.2)

def okCfg : Config := ⟨some "k", some "u", none, none, none⟩

def remote500 : HttpResponse := ⟨500, "Internal Server Error", "server error"⟩

theorem c6_witness :
    ((addMessageHandler okCfg jrNone true remote500 clock0 "hi"
        []).resp.isError = true ∧
      strHasSub (addMessageHandler okCfg jrNone true remote500 clock0 "hi"
        []).resp.text (toString remote500.status) ∧
      strHasSub (addMessageHandler okCfg jrNone true remote500 clock0 "hi"
        []).resp.text remote500.body) ∧
    ((searchMemoryHandler okCfg jrNone true remote500 "q" "hi"
        none).resp.isError = true ∧
      strHasSub (searchMemoryHandler okCfg jrNone true remote500 "q" "hi"
        none).resp.text (toString remote500.status) ∧
      strHasSub (searchMemoryHandler okCfg jrNone true remote500 "q" "hi"
        none).resp.text remote500.body) ∧
    ((deleteMemoryHandler okCfg jrNone true remote500 ["m1"]).resp.isError =
        true ∧
      strHasSub (deleteMemoryHandler okCfg jrNone true remote500
        ["m1"]).resp.text (toString remote500.status) ∧
      strHasSub (deleteMemoryHandler okCfg jrNone true remote500
        ["m1"]).resp.text remote500.body) ∧
    ((addFeedbackHandler okCfg jrNone true remote500 fb0).resp.isError =
        true ∧
      strHasSub (addFeedbackHandler okCfg jrNone true remote500
        fb0).resp.text (toString remote500.status) ∧
      strHasSub (addFeedbackHandler okCfg jrNone true remote500
        fb0).resp.text remote500.body) :=
  c6_remote_error_surfaced okCfg
    (by unfold validCfg; exact ⟨by decide, by decide, by decide⟩) jrNone true
    remote500 clock0 "hi" "q" [] none ["m1"] fb0 (by decide)

/-! ## C7: search limit defaulting -/

/-- C7: the dispatched `search_memory` body carries
`memory_limit_number || 6`: the limit is `6` when the argument is omitted,
`undefined` or zero, and the supplied value for every non-zero number. -/
theorem c7_search_limit_defaulting (cfg : Config) (h : validCfg cfg)
    (jr : JsonRuntime) (useFetch : Bool) (remote : HttpResponse)
    (query cfm : String) (lim : Option Int) :
    (searchMemoryHandler cfg jr useFetch remote query cfm lim).calls =
      [⟨"/search/memory", searchMemoryBodyOf cfg query cfm lim,
        cfg.apiKey.getD ""⟩] ∧
    (lim = none →
      jGet (searchMemoryBodyOf cfg query cfm lim) "memory_limit_number" =
        some (.num 6)) ∧
    (lim = some 0 →
      jGet (searchMemoryBodyOf cfg query cfm lim) "memory_limit_number" =
        some (.num 6)) ∧
    (∀ n : Int, lim = some n → n ≠ 0 →
      jGet (searchMemoryBodyOf cfg query cfm lim) "memory_limit_number" =
        some (.num n)) := by
  refine ⟨searchMemoryHandler_calls cfg h jr useFetch remote query cfm lim,
    ?_, ?_, ?_⟩
  · intro hl
    subst hl
    simp [searchMemoryBodyOf, jGet, jsOrInt]
  · intro hl
    subst hl
    simp [searchMemoryBodyOf, jGet, jsOrInt]
  · intro n hl hn
    subst hl
    simp [searchMemoryBodyOf, jGet, jsOrInt, hn]

theorem c7_witness :
    ((searchMemoryHandler okCfg jrNone true remoteOkEmpty "q" "hi"
        none).calls =
      [⟨"/search/memory", searchMemoryBodyOf okCfg "q" "hi" none,
        okCfg.apiKey.getD ""⟩] ∧
    ((none : Option Int) = none →
      jGet (searchMemoryBodyOf okCfg "q" "hi" none) "memory_limit_number" =
        some (.num 6)) ∧
    ((none : Option Int) = some 0 →
      jGet (searchMemoryBodyOf okCfg "q" "hi" none) "memory_limit_number" =
        some (.num 6)) ∧
    (∀ n : Int, (none : Option Int) = some n → n ≠ 0 →
      jGet (searchMemoryBodyOf okCfg "q" "hi" none) "memory_limit_number" =
        some (.num n))) ∧
    ((searchMemoryHandler okCfg jrNone true remoteOkEmpty "q" "hi"
        (some 3)).calls =
      [⟨"/search/memory", searchMemoryBodyOf okCfg "q" "hi" (some 3),
        okCfg.apiKey.getD ""⟩] ∧
    (some (3 : Int) = none →
      jGet (searchMemoryBodyOf okCfg "q" "hi" (some 3))
        "memory_limit_number" = some (.num 6)) ∧
    (some (3 : Int) = some 0 →
      jGet (searchMemoryBodyOf okCfg "q" "hi" (some 3))
        "memory_limit_number" = some (.num 6)) ∧
    (∀ n : Int, some (3 : Int) = some n → n ≠ 0 →
      jGet (searchMemoryBodyOf okCfg "q" "hi" (some 3))
        "memory_limit_number" = some (.num n))) :=
  ⟨c7_search_limit_defaulting okCfg
      (by unfold validCfg; exact ⟨by decide, by decide, by decide⟩) jrNone
      true remoteOkEmpty "q" "hi" none,
    c7_search_limit_defaulting okCfg
      (by unfold validCfg; exact ⟨by decide, by decide, by decide⟩) jrNone
      true remoteOkEmpty "q" "hi" (some 3)⟩

/-! ## C8: timestamp filling in `add_message` -/

theorem digitChar_isDigit_lt : ∀ d < 10, (digitChar d).isDigit = true := by
  decide

theorem digitChar_mod10_isDigit (n : Nat) :
    (digitChar (n % 10)).isDigit = true :=
  digitChar_isDigit_lt _ (Nat.mod_lt _ (by decide))

theorem generateChatTime_format (c : WallClock) :
    chatTimeFormatOk (generateChatTime c) = true := by
  simp [generateChatTime, chatTimeFormatOk, pad4l, pad2l, pad3l,
    digitChar_mod10_isDigit]

/-- C8: the dispatched `add_message` body maps each incoming message to one
whose `chat_time` is the supplied value when that value is a non-empty
string, and otherwise the wall-clock timestamp `generateChatTime`, which
always matches the fixed shape `YYYY-MM-DD HH:mm:ss.SSS`. -/
theorem c8_chat_time_generation (cfg : Config) (h : validCfg cfg)
    (jr : JsonRuntime) (useFetch : Bool) (remote : HttpResponse)
    (clock : WallClock) (cfm : String) (ms : List MsgIn) :
    (addMessageHandler cfg jr useFetch remote clock cfm ms).calls =
      [⟨"/add/message", addMessageBodyOf cfg clock cfm ms,
        cfg.apiKey.getD ""⟩] ∧
    jGet (addMessageBodyOf cfg clock cfm ms) "messages" =
      some (.arr (newMessagesOf clock ms)) ∧
    chatTimeFormatOk (generateChatTime clock) = true ∧
    (∀ i m, ms.get? i = some m → m.chat_time = none →
      (newMessagesOf clock ms).get? i =
        some (.obj [("role", .str m.role), ("content", .str m.content),
          ("chat_time", .str (generateChatTime clock))])) ∧
    (∀ i m t, ms.get? i = some m → m.chat_time = some t → t ≠ "" →
      (newMessagesOf clock ms).get? i =
        some (.obj [("role", .str m.role), ("content", .str m.content),
          ("chat_time", .str t)])) := by
  refine ⟨addMessageHandler_calls cfg h jr useFetch remote clock cfm ms,
    rfl, generateChatTime_format clock, ?_, ?_⟩
  · intro i m hm hc
    rw [List.get?_eq_getElem?] at hm
    simp [newMessagesOf, List.get?_eq_getElem?, List.getElem?_map, hm,
      jsOrStr, hc]
  · intro i m t hm hc ht
    have hb : (t == "") = false := beq_eq_false_iff_ne.mpr ht
    rw [List.get?_eq_getElem?] at hm
    simp [newMessagesOf, List.get?_eq_getElem?, List.getElem?_map, hm,
      jsOrStr, hc, hb]
    intro h0
    exact absurd h0 ht

def msgs0 : List MsgIn :=
  [⟨"user", "hello", none⟩, ⟨"assistant", "hi", some "2024-01-01 00:00:00.000"⟩]

theorem c8_witness :
    (addMessageHandler okCfg jrNone true remoteOkEmpty clock0 "hi"
        msgs0).calls =
      [⟨"/add/message", addMessageBodyOf okCfg clock0 "hi" msgs0,
        okCfg.apiKey.getD ""⟩] ∧
    jGet (addMessageBodyOf okCfg clock0 "hi" msgs0) "messages" =
      some (.arr (newMessagesOf clock0 msgs0)) ∧
    chatTimeFormatOk (generateChatTime clock0) = true ∧
    (∀ i m, msgs0.get? i = some m → m.chat_time = none →
      (newMessagesOf clock0 msgs0).get? i =
        some (.obj [("role", .str m.role), ("content", .str m.content),
          ("chat_time", .str (generateChatTime clock0))])) ∧
    (∀ i m t, msgs0.get? i = some m → m.chat_time = some t → t ≠ "" →
      (newMessagesOf clock0 msgs0).get? i =
        some (.obj [("role", .str m.role), ("content", .str m.content),
          ("chat_time", .str t)])) :=
  c8_chat_time_generation okCfg
    (by unfold validCfg; exact ⟨by decide, by decide, by decide⟩) jrNone true
    remoteOkEmpty clock0 "hi" msgs0

/-! ## C9: the `MEMOS_CONVERSATION_ID` fallback is dead code -/

theorem actualConversationIdOf_eq (cfg : Config) (u f : String) :
    actualConversationIdOf cfg u f = some (deriveConversationId u f) := by
  have hb : (deriveConversationId u f == "") = false :=
    beq_eq_false_iff_ne.mpr (stringToMd5_ne_empty _)
  simp [actualConversationIdOf, hb]

/-- C9: the MD5 digest is never empty (32 characters), so
`stringToMd5(...) || process.env.MEMOS_CONVERSATION_ID` always takes the
digest: the `conversation_id` placed in every conversation-scoped body is
the derived digest, for every value of `MEMOS_CONVERSATION_ID`. -/
theorem c9_conversation_env_fallback_dead (cfg : Config) (clock : WallClock)
    (uid cfm query : String) (ms : List MsgIn) (lim : Option Int)
    (fb : FeedbackIn) :
    actualConversationIdOf cfg uid cfm =
      some (deriveConversationId uid cfm) ∧
    jGet (addMessageBodyOf cfg clock cfm ms) "conversation_id" =
      some (.str (deriveConversationId (cfg.userId.getD "") cfm)) ∧
    jGet (searchMemoryBodyOf cfg query cfm lim) "conversation_id" =
      some (.str (deriveConversationId (cfg.userId.getD "") cfm)) ∧
    jGet (addFeedbackBodyOf cfg fb) "conversation_id" =
      some (.str (deriveConversationId (cfg.userId.getD "")
        fb.conversation_first_message)) ∧
    (deriveConversationId uid cfm).length = 32 := by
  refine ⟨actualConversationIdOf_eq cfg uid cfm, ?_, ?_, ?_,
    stringToMd5_length _⟩ <;>
    simp [addMessageBodyOf, searchMemoryBodyOf, addFeedbackBodyOf, jGet,
      actualConversationIdOf_eq, JVal.ofOptStr]

/-! ## C10: provenance injection into the outbound payload -/

theorem objSet_get_same (l : List (String × JVal)) (k : String) (v : JVal) :
    jGet (objSet l k v) k = some v := by
  induction l with
  | nil => simp [objSet, jGet]
  | cons p rest ih =>
    obtain ⟨k₀, v₀⟩ := p
    by_cases hk : k₀ = k
    · subst hk
      simp [objSet, jGet]
    · simp [objSet, jGet, hk, ih]

theorem objSet_get_other (l : List (String × JVal)) (k : String) (v : JVal)
    (q : String) (hq : q ≠ k) :
    jGet (objSet l k v) q = jGet l q := by
  induction l with
  | nil => simp [objSet, jGet, Ne.symm hq]
  | cons p rest ih =>
    obtain ⟨k₀, v₀⟩ := p
    by_cases hk : k₀ = k
    · subst hk
      simp [objSet, jGet, Ne.symm hq]
    · by_cases hq0 : k₀ = q
      · subst hq0
        simp [objSet, jGet, hk]
      · simp [objSet, jGet, hk, hq0, ih]

/-- C10: the serialized outbound object is the caller's body with `source`
set to `"MCP"` — the injected provenance field overrides a caller-supplied
`source` key, and every other field is unchanged. -/
theorem c10_source_field_injection (body : List (String × JVal)) (k : String)
    (hk : k ≠ "source") :
    jGet (outboundPayload body) "source" = some (.str "MCP") ∧
    jGet (outboundPayload body) k = jGet body k :=
  ⟨objSet_get_same body "source" (.str "MCP"),
    objSet_get_other body "source" (.str "MCP") k hk⟩

def body10 : List (String × JVal) :=
  [("source", .str "handler"), ("user_id", .str "u")]

theorem c10_witness :
    jGet (outboundPayload body10) "source" = some (.str "MCP") ∧
    jGet (outboundPayload body10) "user_id" = jGet body10 "user_id" :=
  c10_source_field_injection body10 "user_id" (by decide)
